import Mathlib

/-!
Shallow embedding of `src/main.py` (Fashion Recommendation API).

Strings are modelled as Lean `String` (a wrapper around `List Char`); the
regex-based sanitizer `clean_ai_json` and the retry loop
`process_rs_with_retry` are translated operation by operation from the
Python source.  Blocking `time.sleep` calls are modelled by counting them
in an execution trace; the remote Groq call is modelled as an abstract
invoker `String → Nat → Outcome` mapping the prompt and the attempt index
to either the returned message content (which Python types as
`Optional[str]`) or a raised exception.
-/

/-- Python whitespace predicate: the exact character class of
`str.isspace()` (CPython's `Py_UNICODE_ISSPACE`), which is both the set
removed by `str.strip()` with no arguments and the set matched by `\s` in
the source's regexes (str patterns default to Unicode matching, and both
operations use the same class): U+0009 through U+000D, U+001C through
U+0020, U+0085 (NEL), U+00A0 (NBSP), U+1680, U+2000 through U+200A,
U+2028, U+2029, U+202F, U+205F and U+3000. -/
def pyIsSpace (c : Char) : Bool :=
  let n := c.toNat
  (9 ≤ n && n ≤ 13) || (28 ≤ n && n ≤ 32) || n = 133 || n = 160 ||
  n = 5760 || (8192 ≤ n && n ≤ 8202) || n = 8232 || n = 8233 ||
  n = 8239 || n = 8287 || n = 12288

/-- Leading-whitespace removal, the left half of Python `str.strip()`. -/
def lstripWs (l : List Char) : List Char :=
  l.dropWhile pyIsSpace

/-- Trailing-whitespace removal, the right half of Python `str.strip()`. -/
def rstripWs (l : List Char) : List Char :=
  (l.reverse.dropWhile pyIsSpace).reverse

/-- Python `str.strip()` with no arguments: remove leading and trailing
whitespace. -/
def pyStrip (l : List Char) : List Char :=
  rstripWs (lstripWs l)

/-- Model of `re.sub(r"^```json\s*", "", s)` (main.py line 28).  Without
`re.MULTILINE` the anchor `^` matches only at position 0, so at most one
match exists: if the text starts with the seven characters of "```json",
that marker and the maximal following whitespace run (greedy `\s*`) are
removed; otherwise the text is unchanged. -/
def stripLeadFence (l : List Char) : List Char :=
  if "```json".data.isPrefixOf l then (l.drop 7).dropWhile pyIsSpace else l

/-- Model of `re.sub(r"\s*```$", "", s)` (main.py line 29).  The source
applies this to an already-stripped string, so the string cannot end in a
newline and `$` can only match at the very end: the single (leftmost)
match removes a trailing "```" together with the maximal whitespace run
immediately before it; a string not ending in "```" is unchanged. -/
def stripTrailFence (l : List Char) : List Char :=
  if "```".data.isSuffixOf l then ((l.reverse.drop 3).dropWhile pyIsSpace).reverse else l

/-- One match attempt of the regex `"\s*\+\s*"` (main.py line 31) at the
current position: an opening quote, a maximal whitespace run, a plus sign,
a maximal whitespace run and a closing quote (`\s` never matches `+` or
`"`, so the greedy runs are exactly the maximal ones).  Returns the
remainder after the match, or `none` when the position does not match. -/
def concatSplit (l : List Char) : Option (List Char) :=
  match l with
  | [] => none
  | c0 :: r0 =>
    if c0 = '"' then
      match r0.dropWhile pyIsSpace with
      | [] => none
      | c1 :: r1 =>
        if c1 = '+' then
          match r1.dropWhile pyIsSpace with
          | [] => none
          | c2 :: r2 => if c2 = '"' then some r2 else none
        else none
    else none

/-- Left-to-right scan of `re.sub(r'"\s*\+\s*"', '', s)`: at each position
try to match; on a match emit nothing and resume after it, otherwise emit
the character and advance by one.  Every step consumes at least one input
character, so `fuel := l.length` (see `removeConcat`) never runs out; the
fuel only makes the recursion structural. -/
def removeConcatFuel : Nat → List Char → List Char
  | 0, l => l
  | _, [] => []
  | fuel + 1, c :: rest =>
    match concatSplit (c :: rest) with
    | some r => removeConcatFuel fuel r
    | none => c :: removeConcatFuel fuel rest

/-- Model of `re.sub(r'"\s*\+\s*"', '', s)` (main.py line 31): delete every
non-overlapping leftmost occurrence of the quoted-string concatenation
artifact. -/
def removeConcat (l : List Char) : List Char :=
  removeConcatFuel l.length l

/-- Model of Python `str.replace(pat, rep)` for a two-character pattern
`a b` and a one-character replacement `r`: replace all non-overlapping
occurrences scanning from the left (main.py line 33 uses this twice, for
the literal escape sequences "\n" and "\""). -/
def replaceEsc (a b r : Char) : List Char → List Char
  | [] => []
  | c1 :: rest =>
    match rest with
    | [] => [c1]
    | c2 :: rest2 =>
      if c1 = a ∧ c2 = b then r :: replaceEsc a b r rest2
      else c1 :: replaceEsc a b r (c2 :: rest2)

/-- The sanitizing pipeline of `clean_ai_json` after the emptiness check,
in source order (main.py lines 28-33): strip, leading-fence removal,
strip, trailing-fence removal, concatenation-artifact removal, literal
"\n" to newline, literal "\"" to quote. -/
def cleanCore (l : List Char) : List Char :=
  replaceEsc '\\' '"' '"'
    (replaceEsc '\\' 'n' '\n'
      (removeConcat
        (stripTrailFence
          (pyStrip
            (stripLeadFence
              (pyStrip l))))))

/-- Model of `clean_ai_json` (main.py lines 24-34).  The Python parameter
is annotated `str` but actually receives `response.choices[0].message.content`,
which is `Optional[str]`, so the model takes an `Option String`; the guard
`if not ai_message: return None` sends both `None` and the empty string to
the absent sentinel.  The function is a total Lean definition: it returns
normally on every input. -/
def clean_ai_json (ai_message : Option String) : Option String :=
  match ai_message with
  | none => none
  | some s => if s = "" then none else some (String.mk (cleanCore s.data))

/-- The request prompt template of main.py lines 45-56: both tables are
embedded verbatim in a fixed instruction string. -/
def main_prompt (recommendation_table body_analysis_table : String) : String :=
  "Recommendation Table: " ++ recommendation_table ++
  "\nBody Analysis Table: " ++ body_analysis_table ++
  "\n***Return Your Response in JSON Format Only***\nAnalyze the data above and return a detailed fashion recommendation.\nReturn exactly the following fields:\n- text_recommendations\n- top_wear_search_engine_query\n- bottom_wear_search_engine_query\n- shoes_search_engine_query\n- color_recommendations_search_engine_query\n- color_combinations (array of 3-5 combinations)\n"

/-- The response shape of main.py lines 80-93: a dict with six keys, five
string-valued and one holding a list of strings.  All six fields are
present and non-null by construction of the structure. -/
structure RecommendationResult where
  text_recommendations : String
  top_wear_search_engine_query : String
  bottom_wear_search_engine_query : String
  shoes_search_engine_query : String
  color_recommendations_search_engine_query : String
  color_combinations : List String
deriving DecidableEq, Repr

/-- The hardcoded `parsed_json` object of main.py lines 80-93, transcribed
verbatim. -/
def parsed_json : RecommendationResult :=
  { text_recommendations := "Based on the provided height of 170.18 cm, the individual falls into the 167-174 cm height range. For tops, slim-fit or tailored shirts, V-neck sweaters, and layered outfits with proportions are recommended. For bottoms, tapered or straight-leg pants, mid-rise trousers, and neutral or solid colors are suggested. Low or mid-profile sneakers, desert boots, or loafers are ideal for shoes. Leather belts, medium-to-small backpacks, and simple watches or bracelets are suitable accessories. Earth tones or muted palettes with subtle patterns are recommended for color sense."
    top_wear_search_engine_query := "slim fit tailored shirts for men V neck sweaters layered outfits"
    bottom_wear_search_engine_query := "tapered straight leg pants mid rise trousers neutral colors"
    shoes_search_engine_query := "low profile sneakers desert boots loafers for men"
    color_recommendations_search_engine_query := "earth tones muted palettes subtle patterns for men"
    color_combinations := [
      "Navy blue with light brown and white",
      "Olive green with beige and gray",
      "Charcoal gray with navy blue and white",
      "Earth tone brown with olive green and beige",
      "Gray with navy blue and light brown"
    ] }

/-- Outcome of one attempt of the try-block of main.py lines 41-95: either
the Groq call completes and yields the message content (`Optional[str]`),
or some step of the block raises an exception with a message. -/
inductive Outcome where
  | success (content : Option String)
  | failure (err : String)
deriving DecidableEq, Repr

/-- Whether an attempt outcome completed without raising. -/
def Outcome.isSuccess : Outcome → Bool
  | .success _ => true
  | .failure _ => false

/-- Whether an attempt outcome raised. -/
def Outcome.isFailure : Outcome → Bool
  | .success _ => false
  | .failure _ => true

/-- Model of FastAPI `HTTPException(status_code=..., detail=...)`. -/
structure HTTPExceptionModel where
  status_code : Nat
  detail : String
deriving DecidableEq, Repr

/-- Python f-string rendering of an `Optional[str]`: `None` prints as the
four characters "None", a string prints as itself. -/
def pyFormatOption : Option String → String
  | none => "None"
  | some s => s

/-- The detail string of the `HTTPException` raised at main.py lines
103-106 after the loop exhausts. -/
def exhaustDetail (last_response : Option String) : String :=
  "Failed after multiple retries. Last AI response: " ++ pyFormatOption last_response

deriving instance DecidableEq for Except

/-- Observable trace of one run of `process_rs_with_retry`: how many times
the try-block was entered, how many times `time.sleep(delay)` ran, the
final value of `last_response`, the sanitized value computed on the
successful attempt (main.py line 77; `none` when the loop exhausted), and
the returned value or the raised `HTTPException`. -/
structure RunTrace where
  attempts : Nat
  sleeps : Nat
  lastResponse : Option String
  cleaned : Option (Option String)
  result : Except HTTPExceptionModel RecommendationResult
deriving DecidableEq, Repr

/-- The `while attempt < retries` loop of main.py lines 40-101, recursing
on `remaining = retries - attempt`.  On a non-raising attempt the code
stores the content in `last_response`, computes `clean_ai_json` of it
(line 77, bound to `cleaned` and never read again) and returns the
hardcoded `parsed_json` (line 95) before reaching the sleep.  On a raising
attempt it logs, increments `attempt` and sleeps (lines 97-101; the sleep
is outside the `except` block and runs after every failed attempt,
including the last one).  When the loop exits, the `HTTPException` of
lines 103-106 is raised. -/
def processLoop (invokeAt : Nat → Outcome) (attempt : Nat) (remaining : Nat)
    (last_response : Option String) (attemptsDone sleepsDone : Nat) : RunTrace :=
  match remaining with
  | 0 =>
    { attempts := attemptsDone, sleeps := sleepsDone, lastResponse := last_response,
      cleaned := none,
      result := Except.error { status_code := 500, detail := exhaustDetail last_response } }
  | r + 1 =>
    match invokeAt attempt with
    | .success content =>
      { attempts := attemptsDone + 1, sleeps := sleepsDone, lastResponse := content,
        cleaned := some (clean_ai_json content),
        result := Except.ok parsed_json }
    | .failure _ =>
      processLoop invokeAt (attempt + 1) r last_response (attemptsDone + 1) (sleepsDone + 1)

/-- Model of `process_rs_with_retry` (main.py lines 37-106) with the Groq
call abstracted into `invoke`, a function of the prompt text and the
attempt index.  Defaults in the source: `retries=5`, `delay=2.0`; the
delay only determines each sleep's length, which the trace records as a
count of sleep calls. -/
def process_rs_with_retry (invoke : String → Nat → Outcome)
    (recommendation_table body_analysis_table : String) (retries : Nat) : RunTrace :=
  processLoop (invoke (main_prompt recommendation_table body_analysis_table))
    0 retries none 0 0

/-! ## Helper lemmas about the sanitizer pipeline -/

/-- Dropping whitespace from a list that does not start with whitespace is
the identity. -/
theorem dropWhile_no_ws_head (l : List Char)
    (hl : ∀ c, l.head? = some c → pyIsSpace c = false) :
    l.dropWhile pyIsSpace = l := by
  cases l with
  | nil => rfl
  | cons c t =>
    rw [List.dropWhile_cons_of_neg]
    simp [hl c rfl]

/-- Dropping whitespace from a whitespace run followed by text that does
not start with whitespace removes exactly the run. -/
theorem dropWhile_space_append (w l : List Char)
    (hw : ∀ c ∈ w, pyIsSpace c = true)
    (hl : ∀ c, l.head? = some c → pyIsSpace c = false) :
    (w ++ l).dropWhile pyIsSpace = l := by
  induction w with
  | nil =>
    simpa using dropWhile_no_ws_head l hl
  | cons c w ih =>
    rw [List.cons_append, List.dropWhile_cons_of_pos]
    · exact ih fun d hd => hw d (List.mem_cons_of_mem _ hd)
    · simp [hw c (List.mem_cons_self c w)]

/-- A list with no whitespace at its head is unchanged by `lstripWs`. -/
theorem lstripWs_eq_self (l : List Char)
    (hl : ∀ c, l.head? = some c → pyIsSpace c = false) :
    lstripWs l = l :=
  dropWhile_no_ws_head l hl

/-- A list with no whitespace at its last position is unchanged by
`rstripWs`. -/
theorem rstripWs_eq_self (l : List Char)
    (hl : ∀ c, l.getLast? = some c → pyIsSpace c = false) :
    rstripWs l = l := by
  unfold rstripWs
  rw [dropWhile_no_ws_head l.reverse ?_, List.reverse_reverse]
  intro c hc
  rw [List.head?_reverse] at hc
  exact hl c hc

/-- A list with no whitespace at either end is a fixed point of
`pyStrip`. -/
theorem pyStrip_eq_self (l : List Char)
    (hhead : ∀ c, l.head? = some c → pyIsSpace c = false)
    (hlast : ∀ c, l.getLast? = some c → pyIsSpace c = false) :
    pyStrip l = l := by
  unfold pyStrip
  rw [lstripWs_eq_self l hhead, rstripWs_eq_self l hlast]

/-- Stripping a core with whitespace runs on both sides yields the core,
provided the core itself has no whitespace at either end. -/
theorem pyStrip_decompose (w1 core w2 : List Char)
    (hw1 : ∀ c ∈ w1, pyIsSpace c = true)
    (hw2 : ∀ c ∈ w2, pyIsSpace c = true)
    (hne : core ≠ [])
    (hhead : ∀ c, core.head? = some c → pyIsSpace c = false)
    (hlast : ∀ c, core.getLast? = some c → pyIsSpace c = false) :
    pyStrip (w1 ++ core ++ w2) = core := by
  unfold pyStrip lstripWs rstripWs
  rw [List.append_assoc, dropWhile_space_append w1 (core ++ w2) hw1 ?_]
  · rw [List.reverse_append, dropWhile_space_append w2.reverse core.reverse ?_ ?_,
      List.reverse_reverse]
    · intro c hc
      exact hw2 c (List.mem_reverse.mp hc)
    · intro c hc
      rw [List.head?_reverse] at hc
      exact hlast c hc
  · intro c hc
    cases core with
    | nil => exact absurd rfl hne
    | cons d t =>
      rw [List.cons_append] at hc
      exact hhead c hc

/-- When the text does not start with the "```json" marker, the
leading-fence removal is the identity. -/
theorem stripLeadFence_eq_self (l : List Char)
    (h : "```json".data.isPrefixOf l = false) :
    stripLeadFence l = l := by
  simp [stripLeadFence, h]

/-- When the text does not end with the "```" marker, the trailing-fence
removal is the identity. -/
theorem stripTrailFence_eq_self (l : List Char)
    (h : "```".data.isSuffixOf l = false) :
    stripTrailFence l = l := by
  simp [stripTrailFence, h]

/-- The concatenation-artifact pattern cannot match at a position when no
plus sign occurs anywhere in the text. -/
theorem concatSplit_eq_none (l : List Char) (h : '+' ∉ l) :
    concatSplit l = none := by
  cases l with
  | nil => rfl
  | cons c0 r0 =>
    by_cases hq : c0 = '"'
    · subst hq
      simp only [concatSplit, if_pos rfl]
      cases hd : r0.dropWhile pyIsSpace with
      | nil => rfl
      | cons c1 r1 =>
        have hne : c1 ≠ '+' := by
          intro hp
          apply h
          apply List.mem_cons_of_mem
          have hsub : c1 ∈ r0.dropWhile pyIsSpace := by
            rw [hd]
            exact List.mem_cons_self c1 r1
          have hmem := (List.dropWhile_sublist (l := r0) (p := pyIsSpace)).subset hsub
          rwa [hp] at hmem
        simp [hne]
    · simp [concatSplit, hq]

/-- With no plus sign in the text, the concatenation-artifact scan leaves
every character in place, whatever the fuel. -/
theorem removeConcatFuel_eq_self (fuel : Nat) (l : List Char) (h : '+' ∉ l) :
    removeConcatFuel fuel l = l := by
  induction fuel generalizing l with
  | zero => cases l <;> rfl
  | succ fuel ih =>
    cases l with
    | nil => rfl
    | cons c rest =>
      rw [removeConcatFuel, concatSplit_eq_none (c :: rest) h]
      have : '+' ∉ rest := fun hm => h (List.mem_cons_of_mem c hm)
      rw [ih rest this]

/-- With no plus sign in the text, `removeConcat` is the identity. -/
theorem removeConcat_eq_self (l : List Char) (h : '+' ∉ l) :
    removeConcat l = l :=
  removeConcatFuel_eq_self l.length l h

/-- With no occurrence of the first pattern character, `replaceEsc` is the
identity. -/
theorem replaceEsc_eq_self (a b r : Char) (l : List Char) (h : a ∉ l) :
    replaceEsc a b r l = l := by
  induction l with
  | nil => rfl
  | cons c1 rest ih =>
    cases rest with
    | nil => rfl
    | cons c2 rest2 =>
      have h1 : ¬(c1 = a ∧ c2 = b) := by
        rintro ⟨rfl, -⟩
        exact h (List.mem_cons_self c1 _)
      have h2 : a ∉ c2 :: rest2 := fun hm => h (List.mem_cons_of_mem c1 hm)
      rw [replaceEsc, if_neg h1, ih h2]

/-- Core fixed-point lemma for the sanitizer: a text with no whitespace at
either end, not starting with the "```json" marker, not ending with the
"```" marker, and containing no plus sign and no backslash passes through
every stage of `cleanCore` unchanged. -/
theorem cleanCore_eq_self (core : List Char)
    (hhead : ∀ c, core.head? = some c → pyIsSpace c = false)
    (hlast : ∀ c, core.getLast? = some c → pyIsSpace c = false)
    (hpre : "```json".data.isPrefixOf core = false)
    (hsuf : "```".data.isSuffixOf core = false)
    (hplus : '+' ∉ core)
    (hbs : '\\' ∉ core) :
    cleanCore core = core := by
  unfold cleanCore
  rw [pyStrip_eq_self core hhead hlast, stripLeadFence_eq_self core hpre,
    pyStrip_eq_self core hhead hlast, stripTrailFence_eq_self core hsuf,
    removeConcat_eq_self core hplus, replaceEsc_eq_self '\\' 'n' '\n' core hbs,
    replaceEsc_eq_self '\\' '"' '"' core hbs]

/-- Decomposition lemma for the sanitizer: whitespace padding around an
inert core is removed by the first strip and no later stage changes the
core. -/
theorem cleanCore_decompose (w1 core w2 : List Char)
    (hw1 : ∀ c ∈ w1, pyIsSpace c = true)
    (hw2 : ∀ c ∈ w2, pyIsSpace c = true)
    (hne : core ≠ [])
    (hhead : ∀ c, core.head? = some c → pyIsSpace c = false)
    (hlast : ∀ c, core.getLast? = some c → pyIsSpace c = false)
    (hpre : "```json".data.isPrefixOf core = false)
    (hsuf : "```".data.isSuffixOf core = false)
    (hplus : '+' ∉ core)
    (hbs : '\\' ∉ core) :
    cleanCore (w1 ++ core ++ w2) = core := by
  unfold cleanCore
  rw [pyStrip_decompose w1 core w2 hw1 hw2 hne hhead hlast,
    stripLeadFence_eq_self core hpre, pyStrip_eq_self core hhead hlast,
    stripTrailFence_eq_self core hsuf, removeConcat_eq_self core hplus,
    replaceEsc_eq_self '\\' 'n' '\n' core hbs, replaceEsc_eq_self '\\' '"' '"' core hbs]

/-- Bridge from the decidable edge condition to the propositional one used
by the strip lemmas. -/
theorem no_ws_of_all_not (o : Option Char)
    (h : Option.all (fun c => !pyIsSpace c) o = true) :
    ∀ c, o = some c → pyIsSpace c = false := by
  intro c hc
  rw [hc] at h
  simpa using h

/-! ## Helper lemmas about the retry loop -/

/-- When every remaining attempt raises, the loop performs all of them,
sleeps after each one, keeps `last_response` unchanged and ends with the
500 error built from `last_response`. -/
theorem processLoop_all_fail (invokeAt : Nat → Outcome) (rem : Nat) :
    ∀ (a : Nat) (last : Option String) (ad sd : Nat),
      (∀ k, k < rem → (invokeAt (a + k)).isFailure = true) →
      processLoop invokeAt a rem last ad sd =
        { attempts := ad + rem, sleeps := sd + rem, lastResponse := last,
          cleaned := none,
          result := Except.error { status_code := 500, detail := exhaustDetail last } } := by
  induction rem with
  | zero =>
    intro a last ad sd _
    rfl
  | succ rem ih =>
    intro a last ad sd h
    have h0 : (invokeAt a).isFailure = true := by
      have := h 0 (Nat.succ_pos rem)
      simpa using this
    cases hfa : invokeAt a with
    | success content =>
      rw [hfa] at h0
      exact absurd h0 (by simp [Outcome.isFailure])
    | failure e =>
      rw [processLoop, hfa]
      rw [ih (a + 1) last (ad + 1) (sd + 1) ?_]
      · have e1 : ad + 1 + rem = ad + (rem + 1) := by omega
        have e2 : sd + 1 + rem = sd + (rem + 1) := by omega
        rw [e1, e2]
      · intro k hk
        have := h (k + 1) (Nat.succ_lt_succ hk)
        have e3 : a + (k + 1) = a + 1 + k := by omega
        rwa [e3] at this

/-- When some remaining attempt completes without raising, the loop
returns the hardcoded `parsed_json` and records a computed sanitized
value. -/
theorem processLoop_some_success (invokeAt : Nat → Outcome) (rem : Nat) :
    ∀ (a : Nat) (last : Option String) (ad sd : Nat),
      (∃ k, k < rem ∧ (invokeAt (a + k)).isSuccess = true) →
      (processLoop invokeAt a rem last ad sd).result = Except.ok parsed_json ∧
      (processLoop invokeAt a rem last ad sd).cleaned.isSome = true := by
  induction rem with
  | zero =>
    intro a last ad sd h
    obtain ⟨k, hk, -⟩ := h
    exact absurd hk (Nat.not_lt_zero k)
  | succ rem ih =>
    intro a last ad sd h
    cases hfa : invokeAt a with
    | success content =>
      rw [processLoop, hfa]
      exact ⟨rfl, rfl⟩
    | failure e =>
      rw [processLoop, hfa]
      apply ih (a + 1) last (ad + 1) (sd + 1)
      obtain ⟨k, hk, hs⟩ := h
      cases k with
      | zero =>
        rw [Nat.add_zero, hfa] at hs
        exact absurd hs (by simp [Outcome.isSuccess])
      | succ k =>
        refine ⟨k, Nat.lt_of_succ_lt_succ hk, ?_⟩
        have e3 : a + (k + 1) = a + 1 + k := by omega
        rwa [e3] at hs

/-- Any value the loop returns successfully is the hardcoded
`parsed_json`. -/
theorem processLoop_ok_eq (invokeAt : Nat → Outcome) (rem : Nat) :
    ∀ (a : Nat) (last : Option String) (ad sd : Nat) (r : RecommendationResult),
      (processLoop invokeAt a rem last ad sd).result = Except.ok r →
      r = parsed_json := by
  induction rem with
  | zero =>
    intro a last ad sd r h
    exact absurd h (by simp [processLoop])
  | succ rem ih =>
    intro a last ad sd r h
    cases hfa : invokeAt a with
    | success content =>
      rw [processLoop, hfa] at h
      simpa using h.symm
    | failure e =>
      rw [processLoop, hfa] at h
      exact ih (a + 1) last (ad + 1) (sd + 1) r h

/-- When the loop starts with `last_response = None` and ends in an error,
the error is the 500 exception whose detail renders `None`, and
`last_response` is still `None`: an attempt that obtains any text returns
immediately, so the exhausted path never holds a text. -/
theorem processLoop_error_eq (invokeAt : Nat → Outcome) (rem : Nat) :
    ∀ (a ad sd : Nat) (e : HTTPExceptionModel),
      (processLoop invokeAt a rem none ad sd).result = Except.error e →
      e.status_code = 500 ∧ e.detail = exhaustDetail none ∧
      (processLoop invokeAt a rem none ad sd).lastResponse = none := by
  induction rem with
  | zero =>
    intro a ad sd e h
    have h' : Except.error
        ({ status_code := 500, detail := exhaustDetail none } : HTTPExceptionModel) =
        Except.error e := h
    cases h'
    exact ⟨rfl, rfl, rfl⟩
  | succ rem ih =>
    intro a ad sd e h
    cases hfa : invokeAt a with
    | success content =>
      rw [processLoop, hfa] at h
      exact absurd h (by simp)
    | failure err =>
      rw [processLoop, hfa] at h ⊢
      exact ih (a + 1) (ad + 1) (sd + 1) e h

/-! ## Claim theorems -/

/-- C1: whenever some attempt's model invocation completes without
raising, the endpoint pipeline returns the one canonical hardcoded
`parsed_json` object — a constant, hence independent of the model's reply
text and of the two input table strings, which are universally
quantified here.  The sanitized model output is computed on the
successful attempt (the trace records it in `cleaned`, mirroring main.py
line 77) but never used in the returned value. -/
theorem c1_success_returns_canonical (invoke : String → Nat → Outcome)
    (rt bt : String) (retries : Nat)
    (h : ∃ k, k < retries ∧ (invoke (main_prompt rt bt) k).isSuccess = true) :
    (process_rs_with_retry invoke rt bt retries).result = Except.ok parsed_json ∧
    (process_rs_with_retry invoke rt bt retries).cleaned.isSome = true := by
  unfold process_rs_with_retry
  apply processLoop_some_success
  obtain ⟨k, hk, hs⟩ := h
  exact ⟨k, hk, by simpa using hs⟩

/-- C1 witness: a first-attempt success with an arbitrary reply yields the
canonical object. -/
theorem c1_success_returns_canonical_witness :
    (process_rs_with_retry (fun _ _ => Outcome.success (some "any reply"))
      "tableA" "tableB" 5).result = Except.ok parsed_json :=
  (c1_success_returns_canonical (fun _ _ => Outcome.success (some "any reply"))
    "tableA" "tableB" 5 ⟨0, by decide, rfl⟩).1

/-- C2: every successful (non-error) response is the `parsed_json` record,
so all six `RecommendationResult` fields are present and non-null (the
structure carries all six by construction, with concrete string values),
and `color_combinations` is a sequence of between 3 and 5 strings. -/
theorem c2_success_fields (invoke : String → Nat → Outcome) (rt bt : String)
    (retries : Nat) (r : RecommendationResult)
    (h : (process_rs_with_retry invoke rt bt retries).result = Except.ok r) :
    r = parsed_json ∧
    3 ≤ r.color_combinations.length ∧ r.color_combinations.length ≤ 5 := by
  unfold process_rs_with_retry at h
  have hr := processLoop_ok_eq (invoke (main_prompt rt bt)) retries 0 none 0 0 r h
  subst hr
  exact ⟨rfl, by decide, by decide⟩

/-- C2 witness: the canonical result of a concrete successful run has its
`color_combinations` length between 3 and 5. -/
theorem c2_success_fields_witness :
    3 ≤ parsed_json.color_combinations.length ∧
    parsed_json.color_combinations.length ≤ 5 :=
  (c2_success_fields (fun _ _ => Outcome.success none) "a" "b" 5 parsed_json rfl).2

/-- C3 counterexample: with an invoker raising on all five attempts the
run sleeps 5 times, not the 4 times the claim states — the sleep at
main.py line 101 is outside the `except` block and runs after every
failed attempt, including the fifth and last. -/
theorem c3_retry_counterexample :
    (process_rs_with_retry (fun _ _ => Outcome.failure "boom")
      "tableA" "tableB" 5).sleeps = 5 ∧
    (process_rs_with_retry (fun _ _ => Outcome.failure "boom")
      "tableA" "tableB" 5).sleeps ≠ 4 := by
  decide

/-- C3 amended: if the model invocation raises on every attempt, the
orchestrator with five retries performs exactly 5 attempts, sleeps the
fixed delay exactly 5 times — once after every failed attempt, the last
included — and then raises the terminal 500 retry-exhausted error. -/
theorem c3_retry_amended (invoke : String → Nat → Outcome) (rt bt : String)
    (h : ∀ k, k < 5 → (invoke (main_prompt rt bt) k).isFailure = true) :
    (process_rs_with_retry invoke rt bt 5).attempts = 5 ∧
    (process_rs_with_retry invoke rt bt 5).sleeps = 5 ∧
    (process_rs_with_retry invoke rt bt 5).result =
      Except.error
        { status_code := 500,
          detail := "Failed after multiple retries. Last AI response: None" } := by
  unfold process_rs_with_retry
  rw [processLoop_all_fail (invoke (main_prompt rt bt)) 5 0 none 0 0 ?_]
  · exact ⟨rfl, rfl, rfl⟩
  · intro k hk
    simpa using h k hk

/-- C3 amended witness: a concrete all-failing run sleeps exactly 5
times. -/
theorem c3_retry_amended_witness :
    (process_rs_with_retry (fun _ _ => Outcome.failure "err")
      "tableA" "tableB" 5).sleeps = 5 :=
  (c3_retry_amended (fun _ _ => Outcome.failure "err") "tableA" "tableB"
    (fun _ _ => rfl)).2.1

/-- C4: when all attempts are exhausted the request fails with HTTP 500,
and the detail string contains the failure reason and renders the last
observed model text; because an attempt that obtains any text returns
immediately, the exhausted path always falls in the claim's second case —
every attempt failed before the invoker produced text — so
`last_response` is absent and the detail carries no model text. -/
theorem c4_exhausted_detail (invoke : String → Nat → Outcome) (rt bt : String)
    (retries : Nat) (e : HTTPExceptionModel)
    (h : (process_rs_with_retry invoke rt bt retries).result = Except.error e) :
    e.status_code = 500 ∧
    e.detail = "Failed after multiple retries. Last AI response: None" ∧
    (process_rs_with_retry invoke rt bt retries).lastResponse = none := by
  unfold process_rs_with_retry at h ⊢
  have hh := processLoop_error_eq (invoke (main_prompt rt bt)) retries 0 0 0 e h
  exact ⟨hh.1, hh.2.1, hh.2.2⟩

/-- C4 witness: a concrete exhausted run ends with no observed model
text. -/
theorem c4_exhausted_detail_witness :
    (process_rs_with_retry (fun _ _ => Outcome.failure "err")
      "tableA" "tableB" 5).lastResponse = none :=
  (c4_exhausted_detail (fun _ _ => Outcome.failure "err") "tableA" "tableB" 5
    { status_code := 500,
      detail := "Failed after multiple retries. Last AI response: None" } rfl).2.2

/-- C5 counterexample: the text a-newline is the result of one application
of the sanitizer (to the text a, backslash, n), yet applying the sanitizer
to it gives the text a alone — the newline the first pass created from the
escape sequence is stripped by the second pass — so the sanitizer is not
idempotent on its own output. -/
theorem c5_idempotence_counterexample :
    clean_ai_json (some "a\\n") = some "a\n" ∧
    clean_ai_json (some "a\n") ≠ some "a\n" := by
  decide

/-- C5 amended: the sanitizer is not idempotent on all of its outputs (a
first pass can create fresh edge whitespace, as the counterexample shows,
or leave a second fence marker in place); it is the identity — hence
idempotent — on every nonempty text with no whitespace at either end that
does not start with the "```json" fence, does not end with the "```"
fence, and contains no plus sign and no backslash. -/
theorem c5_idempotence_amended (t : String)
    (hne : t ≠ "")
    (hhead : Option.all (fun c => !pyIsSpace c) t.data.head? = true)
    (hlast : Option.all (fun c => !pyIsSpace c) t.data.getLast? = true)
    (hpre : "```json".data.isPrefixOf t.data = false)
    (hsuf : "```".data.isSuffixOf t.data = false)
    (hplus : '+' ∉ t.data)
    (hbs : '\\' ∉ t.data) :
    clean_ai_json (some t) = some t := by
  simp only [clean_ai_json]
  rw [if_neg hne,
    cleanCore_eq_self t.data (no_ws_of_all_not _ hhead) (no_ws_of_all_not _ hlast)
      hpre hsuf hplus hbs]

/-- C5 amended witness: a clean word is a fixed point of the sanitizer. -/
theorem c5_idempotence_amended_witness :
    clean_ai_json (some "hello") = some "hello" :=
  c5_idempotence_amended "hello" (by decide) (by decide) (by decide) (by decide)
    (by decide) (by decide) (by decide)

/-- C6: on the crafted input of a leading fence line, the body with the
quote-plus-quote artifact, and a trailing fence line, the sanitizer
returns exactly the body with fences removed and the artifact
collapsed. -/
theorem c6_crafted_roundtrip :
    clean_ai_json (some "```json\n\x7b\"a\": \"x\" + \"y\"\x7d\n```") =
      some "\x7b\"a\": \"xy\"\x7d" := by
  decide

/-- C7 counterexample: on the input backslash, quote, value, backslash,
backslash, n, line2, backslash, quote the sanitizer does not return the
claimed bare quote, value, newline, line2, bare quote. -/
theorem c7_escape_counterexample :
    clean_ai_json (some "\\\"value\\\\nline2\\\"") ≠ some "\"value\nline2\"" := by
  decide

/-- C7 amended: on that input the sanitizer yields bare quote, value, one
surviving backslash, a real newline, line2, bare quote: scanning left to
right, the two-character pattern backslash-n that is replaced by a newline
is formed by the second backslash of the double backslash together with
the n, so the first backslash remains in the output; both literal
backslash-quote sequences become bare quotes. -/
theorem c7_escape_amended :
    clean_ai_json (some "\\\"value\\\\nline2\\\"") = some "\"value\\\nline2\"" := by
  decide

/-- C8: the sanitizer is total — `clean_ai_json` is a total Lean function
translated from the source, returning normally on every input — and it
returns the absent sentinel exactly on absent or empty input: never an
error value and never an empty-string result for empty input. -/
theorem c8_total_absent (m : Option String) :
    clean_ai_json m = none ↔ m = none ∨ m = some "" := by
  cases m with
  | none => simp [clean_ai_json]
  | some s =>
    by_cases hs : s = ""
    · subst hs
      simp [clean_ai_json]
    · simp [clean_ai_json, hs]

/-- C9: the sanitizer removes all leading and trailing whitespace even
when no code-fence markers are present: around any inert core (nonempty,
no whitespace at its own ends, no fence markers, no plus sign, no
backslash) any whitespace padding is removed and exactly the core is
returned — in particular two spaces around the word hello give back
hello — although the spec lists only fence stripping, concatenation
collapse and escape replacement. -/
theorem c9_trims_whitespace (w1 core w2 : List Char)
    (hw1 : w1.all pyIsSpace = true)
    (hw2 : w2.all pyIsSpace = true)
    (hne : core ≠ [])
    (hhead : Option.all (fun c => !pyIsSpace c) core.head? = true)
    (hlast : Option.all (fun c => !pyIsSpace c) core.getLast? = true)
    (hpre : "```json".data.isPrefixOf core = false)
    (hsuf : "```".data.isSuffixOf core = false)
    (hplus : '+' ∉ core)
    (hbs : '\\' ∉ core) :
    clean_ai_json (some (String.mk (w1 ++ core ++ w2))) = some (String.mk core) := by
  have hne' : String.mk (w1 ++ core ++ w2) ≠ "" := by
    intro hcontra
    have hdata : w1 ++ (core ++ w2) = [] := by
      simpa using congrArg String.data hcontra
    rcases List.append_eq_nil.mp hdata with ⟨-, h2⟩
    exact hne (List.append_eq_nil.mp h2).1
  simp only [clean_ai_json]
  rw [if_neg hne',
    cleanCore_decompose w1 core w2
      (fun c hc => List.all_eq_true.mp hw1 c hc)
      (fun c hc => List.all_eq_true.mp hw2 c hc)
      hne (no_ws_of_all_not _ hhead) (no_ws_of_all_not _ hlast) hpre hsuf hplus hbs]

/-- C9 witness: two spaces of padding around hello are trimmed. -/
theorem c9_trims_whitespace_witness :
    clean_ai_json (some "  hello  ") = some "hello" := by
  have h := c9_trims_whitespace "  ".data "hello".data "  ".data (by decide) (by decide)
    (by decide) (by decide) (by decide) (by decide) (by decide) (by decide) (by decide)
  exact h

/-- C10: the concatenation-collapse step deletes every occurrence of
quote, whitespace, plus, whitespace, quote, even when the occurrence is a
legitimate complete string literal: on the object whose op key holds the
string value space-plus-space, the sanitizer deletes the value together
with its surrounding quotes. -/
theorem c10_collapse_legitimate_literal :
    clean_ai_json (some "\x7b\"op\": \" + \"\x7d") = some "\x7b\"op\": \x7d" := by
  decide
